import Mathlib

/-!
Shallow embedding of gm/rebaseline_server/compare_to_expectations.py
(`Results` class): the reconciliation engine that cross-references
actual and expected GM results, the expectation writer, and the
results-service read path.  Python dictionaries are modelled as
association lists (`List (String × β)`) with `lookupA` / `insertA`
giving dict lookup / assignment semantics; exceptions are modelled with
`Except`.
-/

/-! ## Generic helpers: association lists and string utilities -/

/-- Dictionary lookup on an association list (Python `d[k]` / `d.get(k)`). -/
def lookupA {β : Type} (k : String) : List (String × β) → Option β
  | [] => none
  | (k', v') :: rest => if k' = k then some v' else lookupA k rest

/-- Dictionary assignment on an association list (Python `d[k] = v`):
replaces the binding for `k` if present, otherwise appends it. -/
def insertA {β : Type} (k : String) (v : β) : List (String × β) → List (String × β)
  | [] => [(k, v)]
  | (k', v') :: rest => if k' = k then (k, v) :: rest else (k', v') :: insertA k v rest

/-- Keys of an association list viewed as a dict (first occurrence wins). -/
def dictKeys {β : Type} (d : List (String × β)) : List String :=
  (d.map Prod.fst).eraseDups

/-- Insert a string into an already-sorted list (model of Python stable sort). -/
def insertSorted (x : String) : List String → List String
  | [] => [x]
  | y :: ys => if x ≤ y then x :: y :: ys else y :: insertSorted x ys

/-- Model of Python `sorted()` on a list of strings. -/
def sortStrings (l : List String) : List String :=
  l.foldr insertSorted []

/-- Model of Python `sorted(d.keys())` for a dict modelled as an association list. -/
def sortedKeys {β : Type} (d : List (String × β)) : List String :=
  sortStrings (dictKeys d)

/-- Does the character list end with the given suffix? (Python `str.endswith`). -/
def listEndsWith (cs suf : List Char) : Bool :=
  decide (suf.length ≤ cs.length) && decide (cs.drop (cs.length - suf.length) = suf)

/-- Does the character list contain the given contiguous substring?
(Python `sub in s`). -/
def containsSub : List Char → List Char → Bool
  | [], sub => sub.isEmpty
  | c :: rest, sub => sub.isPrefixOf (c :: rest) || containsSub rest sub

/-- Decimal digit value of a character, if it is a digit. -/
def charDigit (c : Char) : Option Nat :=
  if '0' ≤ c ∧ c ≤ '9' then some (c.toNat - '0'.toNat) else none

/-- Accumulating decimal parser over a character list. -/
def digitsToNatAux : Nat → List Char → Option Nat
  | acc, [] => some acc
  | acc, c :: cs =>
    match charDigit c with
    | none => none
    | some d => digitsToNatAux (acc * 10 + d) cs

/-- Model of Python `int(s)` restricted to non-empty decimal digit strings
(the digest strings that occur in GM-relative URLs). -/
def strToNat (s : String) : Option Nat :=
  match s.data with
  | [] => none
  | cs => digitsToNatAux 0 cs

/-- Strip a trailing `.png` from a character list, if present. -/
def stripPngSuffix (cs : List Char) : Option (List Char) :=
  if listEndsWith cs ['.', 'p', 'n', 'g'] then some (cs.take (cs.length - 4)) else none

/-- Split a character list at its last underscore, returning the (possibly
empty) parts before and after it; `none` if there is no underscore. -/
def splitLastUs : List Char → Option (List Char × List Char)
  | [] => none
  | c :: cs =>
    match splitLastUs cs with
    | some (t, cfg) => some (c :: t, cfg)
    | none => if c = '_' then some ([], cs) else none

/-- Split a character list into groups separated by the slash character
(Python `s.split(chr(47))`). -/
def splitOnSlash : List Char → List (List Char)
  | [] => [[]]
  | c :: cs =>
    match splitOnSlash cs with
    | [] => [[c]]
    | g :: gs => if c = '/' then [] :: g :: gs else (c :: g) :: gs

/-! ## Constants from results.py / gm_json.py (modelled from the spec)

The classification labels and key constants live in results.py and
gm_json.py, which are not part of the embedded source; only their
identity and distinctness matter here. -/

/-- Modelled from the spec: the FAILED classification label. -/
def KEY__RESULT_TYPE__FAILED : String := "failed"

/-- Modelled from the spec: the FAILURE_IGNORED classification label. -/
def KEY__RESULT_TYPE__FAILUREIGNORED : String := "failure-ignored"

/-- Modelled from the spec: the NO_COMPARISON classification label. -/
def KEY__RESULT_TYPE__NOCOMPARISON : String := "no-comparison"

/-- Modelled from the spec: the SUCCEEDED classification label. -/
def KEY__RESULT_TYPE__SUCCEEDED : String := "succeeded"

/-- Modelled from the spec: key naming the all-records partition. -/
def KEY__HEADER__RESULTS_ALL : String := "all"

/-- Modelled from the spec: key naming the failures-only partition. -/
def KEY__HEADER__RESULTS_FAILURES : String := "failures"

/-- Modelled from the spec: the packaged-results schema version constant
(results.REBASELINE_SERVER_SCHEMA_VERSION_NUMBER, not under src/; its
concrete value is irrelevant to every property proved here). -/
def REBASELINE_SERVER_SCHEMA_VERSION_NUMBER : Int := 0

/-! ## Image naming (modelled from the spec)

The image-identity formatter/parser and GM-relative-URL builder/splitter
live in results.py and gm_json.py, which are not under src/.  The spec
fixes the format: image identity is test_config.png with a parser
recovering (test, config) exactly; a GM-relative URL is built from the
hash type, test name and digest. -/

/-- Modelled from the spec: results.IMAGE_FILENAME_FORMATTER, image
identity is the test name, an underscore, the config name and the
`.png` extension. -/
def formatImageName (test config : String) : String :=
  test ++ "_" ++ config ++ ".png"

/-- Modelled from the spec: results.IMAGE_FILENAME_RE, the fixed parser
recovering (test, config) from an image identity.  The test name is
greedy: it extends to the last underscore. -/
def parseImageName (s : String) : Option (String × String) :=
  match stripPngSuffix s.data with
  | none => none
  | some base =>
    match splitLastUs base with
    | none => none
    | some (t, c) =>
      if t.isEmpty ∨ c.isEmpty then none else some (String.mk t, String.mk c)

/-- Modelled from the spec: gm_json.CreateGmRelativeUrl, the URL for an
image relative to the actuals root, built from hash type, test name and
hash digest. -/
def createGmRelativeUrl (test hashType : String) (hashDigest : Nat) : String :=
  hashType ++ "/" ++ test ++ "/" ++ toString hashDigest ++ ".png"

/-- Modelled from the spec: gm_json.SplitGmRelativeUrl, recovering
(test, hash type, hash digest string) from a GM-relative URL. -/
def splitGmRelativeUrl (url : String) : Option (String × String × String) :=
  match splitOnSlash url.data with
  | [ht, t, dp] =>
    match stripPngSuffix dp with
    | some d => some (String.mk t, String.mk ht, String.mk d)
    | none => none
  | _ => none

/-! ## Data model -/

/-- An (algorithm, digest) pair, e.g. a bitmap-64bitMD5 checksum. -/
abbrev HashTypeDigest := String × Nat

/-- One expectation entry for a (builder, image identity): the allowed
digests plus the verbatim metadata fields (each `none` when the JSON
field is absent or null). -/
structure ExpectationsPerTest where
  allowedDigests : Option (List HashTypeDigest)
  bugs : Option (List Nat)
  ignoreFailure : Option Bool
  reviewed : Option Bool
deriving DecidableEq

/-- The expectations dict copied verbatim onto a record
(`expectations_dict` in `_load_actual_and_expected`): the three
pass-through fields, each possibly null. -/
structure ExpectationsDict where
  bugs : Option (List Nat)
  ignoreFailure : Option Bool
  reviewed : Option Bool
deriving DecidableEq

/-- The extra-columns dict attached to each record. -/
structure ExtraColumns where
  resultType : String
  builder : String
  test : String
  config : String
deriving DecidableEq

/-- One reconciled comparison record (an `imagepair.ImagePair`): the
expected image URL (`imageA`), the actual image URL (`imageB`), the
verbatim expectation metadata, the extra columns and the diff handle
obtained from the diff store. -/
structure ImagePairRec where
  imageA : Option String
  imageB : Option String
  expectations : Option ExpectationsDict
  extraColumns : ExtraColumns
  diff : Nat
deriving DecidableEq

/-- One missing-expectation warning: the payload logged by
`logging.warning` names the builder, the classification and the image
identity. -/
structure WarningInfo where
  builder : String
  resultType : String
  imageName : String
deriving DecidableEq

/-- One builder's document in the expected tree: the expected-results
section maps image identities to expectation entries; `none` models an
absent or null section (both raise a caught KeyError/TypeError). -/
structure ExpectedBuilderDoc where
  expectedResults : Option (List (String × ExpectationsPerTest))
deriving DecidableEq

/-- One builder's document in the actual tree: classification label to
(image identity to optional digest pair); a `none` digest models the
JSON null recorded for images with nothing to compare against. -/
structure ActualBuilderDoc where
  actualResults : List (String × List (String × Option HashTypeDigest))
deriving DecidableEq

/-- Modelled from the spec: the external diff store, which takes two
nullable image references and produces a diff handle or fails
(imagediffdb / imagepair are not under src/). -/
abbrev DiffStore := Option String → Option String → Except Unit Nat

/-! ## Per-record reconciliation -/

/-- Outcome of `Results._create_relative_url`: null when there is no
record of the image, otherwise the GM-relative URL. -/
def createRelativeUrl (hashtypeAndDigest : Option HashTypeDigest) (testName : String) :
    Option String :=
  match hashtypeAndDigest with
  | none => none
  | some (ht, hd) => some (createGmRelativeUrl testName ht hd)

/-- Result of the expectation lookup in the try-block of
`_load_actual_and_expected`: either everything was found (yielding the
expected URL and the verbatim expectations dict), or a KeyError /
TypeError was caught (absent builder, section, image or allowed-digests
field), or the allowed-digests list was present but empty (an IndexError
the code does not catch, hence fatal). -/
inductive ExpLookupResult where
  | found (expectedUrl : String) (expectationsDict : ExpectationsDict)
  | notFound
  | fatalIndexError
deriving DecidableEq

/-- The try-block of `_load_actual_and_expected`: look up the expectation
entry for (builder, image identity), build the expected image URL from
its first allowed digest and copy the verbatim metadata fields. -/
def lookupExpectations (expectedDicts : List (String × ExpectedBuilderDoc))
    (builder imageName test : String) : ExpLookupResult :=
  match lookupA builder expectedDicts with
  | none => .notFound
  | some doc =>
    match doc.expectedResults with
    | none => .notFound
    | some expResults =>
      match lookupA imageName expResults with
      | none => .notFound
      | some ept =>
        match ept.allowedDigests with
        | none => .notFound
        | some [] => .fatalIndexError
        | some (d :: _) =>
          .found (createGmRelativeUrl test d.1 d.2)
            { bugs := ept.bugs, ignoreFailure := ept.ignoreFailure, reviewed := ept.reviewed }

/-- Everything the body of the innermost loop of
`_load_actual_and_expected` produces for one (builder, classification,
image) triple: the parsed identity, the two references, the reclassified
label, the warnings emitted, and the record (none when the diff store
failed and the record was dropped). -/
structure RecordOutcome where
  test : String
  config : String
  expectedUrl : Option String
  actualUrl : Option String
  updatedResultType : String
  warnings : List WarningInfo
  record : Option ImagePairRec
deriving DecidableEq, Inhabited

/-- Build the tail of the loop body, after the expectation lookup:
reclassify, call the diff store, and build the record or drop it. -/
def mkOutcome (diffStore : DiffStore) (builder resultType test config : String)
    (actualUrl expectedUrl : Option String) (expectationsDict : Option ExpectationsDict)
    (warnings : List WarningInfo) : RecordOutcome :=
  let updated :=
    if expectedUrl = actualUrl then KEY__RESULT_TYPE__SUCCEEDED else resultType
  let record :=
    match diffStore expectedUrl actualUrl with
    | .error _ => none
    | .ok d =>
      some { imageA := expectedUrl, imageB := actualUrl,
             expectations := expectationsDict,
             extraColumns :=
               { resultType := updated, builder := builder, test := test, config := config },
             diff := d }
  { test := test, config := config, expectedUrl := expectedUrl, actualUrl := actualUrl,
    updatedResultType := updated, warnings := warnings, record := record }

/-- The body of the innermost loop of `_load_actual_and_expected` for one
(builder, classification label, image identity, digest) item.  A parse
failure of the image identity and an empty allowed-digests list are the
two uncaught exceptions, modelled as errors. -/
def processOne (diffStore : DiffStore) (expectedDicts : List (String × ExpectedBuilderDoc))
    (builder resultType imageName : String) (htd : Option HashTypeDigest) :
    Except String RecordOutcome :=
  match parseImageName imageName with
  | none => .error ("image filename does not match pattern: " ++ imageName)
  | some (test, config) =>
    match lookupExpectations expectedDicts builder imageName test with
    | .fatalIndexError => .error "list index out of range"
    | .notFound =>
      .ok (mkOutcome diffStore builder resultType test config
        (createRelativeUrl htd test) none none
        (if resultType = KEY__RESULT_TYPE__NOCOMPARISON then []
         else [{ builder := builder, resultType := resultType, imageName := imageName }]))
    | .found u ed =>
      .ok (mkOutcome diffStore builder resultType test config
        (createRelativeUrl htd test) (some u) (some ed) [])

/-! ## The batch loop of `_load_actual_and_expected` -/

/-- The mutable state of the batch loop: the two record partitions, the
missing-expectation warnings and the exception log messages emitted so
far. -/
structure LoadState where
  allPairs : List ImagePairRec
  failingPairs : List ImagePairRec
  warnings : List WarningInfo
  logs : List String
deriving DecidableEq

/-- Message logged by `logging.exception` when building a record fails. -/
def EXCEPTION_LOG_MSG : String := "got exception while creating new ImagePair"

/-- One iteration of the batch loop: process one (builder, classification,
image, digest) item and fold its outcome into the state.  The record, if
one was produced, is always added to the all-records partition and added
to the failures partition iff its reclassified label is not SUCCEEDED;
a dropped record is logged instead. -/
def loadStep (diffStore : DiffStore) (expectedDicts : List (String × ExpectedBuilderDoc))
    (st : LoadState) (item : String × String × String × Option HashTypeDigest) :
    Except String LoadState :=
  match processOne diffStore expectedDicts item.1 item.2.1 item.2.2.1 item.2.2.2 with
  | .error e => .error e
  | .ok o =>
    match o.record with
    | none =>
      .ok { st with warnings := st.warnings ++ o.warnings,
                    logs := st.logs ++ [EXCEPTION_LOG_MSG] }
    | some r =>
      .ok { allPairs := st.allPairs ++ [r],
            failingPairs :=
              st.failingPairs ++
                (if o.updatedResultType ≠ KEY__RESULT_TYPE__SUCCEEDED then [r] else []),
            warnings := st.warnings ++ o.warnings,
            logs := st.logs }

/-- The batch loop itself: fold `loadStep` over the item list, stopping at
the first uncaught exception. -/
def loadFold (diffStore : DiffStore) (expectedDicts : List (String × ExpectedBuilderDoc)) :
    LoadState → List (String × String × String × Option HashTypeDigest) →
    Except String LoadState
  | st, [] => .ok st
  | st, item :: rest =>
    match loadStep diffStore expectedDicts st item with
    | .error e => .error e
    | .ok st' => loadFold diffStore expectedDicts st' rest

/-- Flatten the actual tree into the iteration order of
`_load_actual_and_expected`: builders in sorted order, classification
labels in sorted order, image identities in sorted order, skipping empty
classification sections (`if not results_of_this_type: continue`). -/
def recordItems (actualDicts : List (String × ActualBuilderDoc)) :
    List (String × String × String × Option HashTypeDigest) :=
  (sortedKeys actualDicts).flatMap fun builder =>
    match lookupA builder actualDicts with
    | none => []
    | some doc =>
      (sortedKeys doc.actualResults).flatMap fun resultType =>
        match lookupA resultType doc.actualResults with
        | none => []
        | some imgs =>
          if imgs.isEmpty then []
          else (sortedKeys imgs).map fun imageName =>
            (builder, resultType, imageName, (lookupA imageName imgs).getD none)

/-- The empty initial state of the batch loop. -/
def initLoadState : LoadState :=
  { allPairs := [], failingPairs := [], warnings := [], logs := [] }

/-- The whole record-building phase of `_load_actual_and_expected`, given
the two loaded trees and the diff store. -/
def loadActualAndExpected (diffStore : DiffStore)
    (actualDicts : List (String × ActualBuilderDoc))
    (expectedDicts : List (String × ExpectedBuilderDoc)) : Except String LoadState :=
  loadFold diffStore expectedDicts initLoadState (recordItems actualDicts)

/-! ## Tree loader and writer (`_read_dicts_from_root`, `_write_dicts_to_root`) -/

/-- Returns true when expectations and actuals for a builder are ignored:
trybots and the Valgrind / TSAN / ASAN continuous-testing builders
(`Results._ignore_builder`). -/
def ignoreBuilder (builder : String) : Bool :=
  listEndsWith builder.data "-Trybot".data ||
  containsSub builder.data "Valgrind".data ||
  containsSub builder.data "TSAN".data ||
  containsSub builder.data "ASAN".data

/-- Does a filename match the default fnmatch pattern used by the loader
and writer? -/
def matchesJson (name : String) : Bool :=
  listEndsWith name.data ".json".data

/-- One file seen by the directory walk: the basename of its directory
(the builder name), its filename, and the document it holds. -/
structure FsFile (α : Type) where
  dir : String
  name : String
  doc : α
deriving DecidableEq

/-- `Results._read_dicts_from_root`: walk the files in order and collect
the document of each matching file under its builder name, skipping
ignored builders; a later file for the same builder overwrites an
earlier one. -/
def readDictsFromRoot {α : Type} (fs : List (FsFile α)) : List (String × α) :=
  fs.foldl
    (fun acc f =>
      if matchesJson f.name ∧ ¬ ignoreBuilder f.dir then insertA f.dir f.doc acc else acc)
    []

/-- The write pass of `Results._write_dicts_to_root`: walk the files in
order and, for each matching file whose builder is not ignored and has an
entry in the meta-dict, overwrite the file's document; collect the list
of builders written. -/
def writePass {α : Type} (metaDict : List (String × α)) :
    List (FsFile α) → List (FsFile α) × List String
  | [] => ([], [])
  | f :: rest =>
    let tail := writePass metaDict rest
    if matchesJson f.name ∧ ¬ ignoreBuilder f.dir then
      match lookupA f.dir metaDict with
      | some doc => ({ f with doc := doc } :: tail.1, f.dir :: tail.2)
      | none => (f :: tail.1, tail.2)
    else (f :: tail.1, tail.2)

/-- Errors raised on the edit path: the KeyError raised either by the
builder lookup in `edit_expectations` or by the builder-set check in
`_write_dicts_to_root`, the ValueError of `int()`, and the TypeError of
unpacking a failed URL split. -/
inductive EditErr where
  | keyError (msg : String)
  | valueError (msg : String)
  | typeError (msg : String)
deriving DecidableEq

/-- `Results._write_dicts_to_root`: run the write pass, then verify that
the sorted set of builders written equals the sorted key set of the
meta-dict, raising a KeyError on mismatch.  The files written during the
pass stay written even when the check fails. -/
def writeDictsToRoot {α : Type} (metaDict : List (String × α)) (fs : List (FsFile α)) :
    Except EditErr Unit × List (FsFile α) :=
  let passed := writePass metaDict fs
  let expectedBuildersWritten := sortStrings (dictKeys metaDict)
  let actualBuildersWritten := sortStrings passed.2
  (if expectedBuildersWritten = actualBuildersWritten then .ok ()
   else .error (.keyError "expected to write dicts for different builder set"),
   passed.1)

/-! ## Expectation editing (`edit_expectations`) -/

/-- One requested edit: the (builder, test, config) identity, the
GM-relative URL of the new allowed image, and the optional verbatim
metadata fields to set. -/
structure Modification where
  builder : String
  test : String
  config : String
  newImageUrl : String
  bugs : Option (List Nat)
  ignoreFailure : Option Bool
  reviewed : Option Bool
deriving DecidableEq

/-- Build the new expectation entry for one modification: split its URL
into hash type and digest, parse the digest as an integer, and attach
every verbatim metadata field that is not null.  The entry is built from
scratch, never from the prior entry. -/
def newExpectationsEntry (m : Modification) : Except EditErr ExpectationsPerTest :=
  match splitGmRelativeUrl m.newImageUrl with
  | none => .error (.typeError "cannot unpack SplitGmRelativeUrl result")
  | some (_, hashType, hashDigest) =>
    match strToNat hashDigest with
    | none => .error (.valueError ("invalid literal for int: " ++ hashDigest))
    | some hd =>
      .ok { allowedDigests := some [(hashType, hd)],
            bugs := m.bugs, ignoreFailure := m.ignoreFailure, reviewed := m.reviewed }

/-- Apply one modification to the reloaded expected tree: build the new
entry, look the builder up (a KeyError when absent), and assign the
entry under the image identity, creating the expected-results section if
it was absent or empty. -/
def applyOneMod (dicts : List (String × ExpectedBuilderDoc)) (m : Modification) :
    Except EditErr (List (String × ExpectedBuilderDoc)) :=
  let imageName := formatImageName m.test m.config
  match newExpectationsEntry m with
  | .error e => .error e
  | .ok entry =>
    match lookupA m.builder dicts with
    | none => .error (.keyError m.builder)
    | some doc =>
      let cur :=
        match doc.expectedResults with
        | none => []
        | some l => l
      .ok (insertA m.builder { expectedResults := some (insertA imageName entry cur) } dicts)

/-- The modification loop of `edit_expectations`, in input order, stopping
at the first uncaught exception. -/
def applyMods : List (String × ExpectedBuilderDoc) → List Modification →
    Except EditErr (List (String × ExpectedBuilderDoc))
  | dicts, [] => .ok dicts
  | dicts, m :: ms =>
    match applyOneMod dicts m with
    | .error e => .error e
    | .ok d' => applyMods d' ms

/-- `Results.edit_expectations`: reload the expected tree fresh from disk,
apply the modifications in order, and write every builder document back.
The result is the error, if any, paired with the final state of the
files on disk (unchanged when the modification loop raises). -/
def editExpectations (fs : List (FsFile ExpectedBuilderDoc)) (mods : List Modification) :
    Except EditErr Unit × List (FsFile ExpectedBuilderDoc) :=
  let dicts := readDictsFromRoot fs
  match applyMods dicts mods with
  | .error e => (.error e, fs)
  | .ok d' => writeDictsToRoot d' fs

/-- Lookup of the expectation entry stored for a (builder, image identity)
in an expected tree. -/
def lookupExpEntry (dicts : List (String × ExpectedBuilderDoc)) (builder imageName : String) :
    Option ExpectationsPerTest :=
  match lookupA builder dicts with
  | none => none
  | some doc =>
    match doc.expectedResults with
    | none => none
    | some l => lookupA imageName l

/-! ## Results service read path -/

/-- The header block added by `get_packaged_results_of_type`. -/
structure Header where
  schemaVersion : Int
  timeUpdated : Int
  timeNextUpdateAvailable : Option Int
  type : String
  dataHash : String
  isEditable : Bool
  isExported : Bool
deriving DecidableEq

/-- One partition as stored in `self._results`: the record list plus the
header block, absent until the partition is packaged (modelled from the
spec: `imagepairset.ImagePairSet.as_dict` is not under src/, its payload
is the record list). -/
structure ResponseDict where
  imagePairs : List ImagePairRec
  header : Option Header
deriving DecidableEq

/-- The state of one `Results` instance relevant to the read path: the
partition dict built at construction and the construction timestamp. -/
structure ResultsState where
  results : List (String × ResponseDict)
  timestamp : Int
deriving DecidableEq

/-- Build the `self._results` dict at the end of
`_load_actual_and_expected`: the all-records partition and the
failures-only partition, neither packaged yet. -/
def mkResultsState (st : LoadState) (timestamp : Int) : ResultsState :=
  { results :=
      [(KEY__HEADER__RESULTS_ALL, { imagePairs := st.allPairs, header := none }),
       (KEY__HEADER__RESULTS_FAILURES, { imagePairs := st.failingPairs, header := none })],
    timestamp := timestamp }

/-- `Results.get_results_of_type`: the raw stored partition (a KeyError on
an unknown kind is modelled as `none`). -/
def getResultsOfType (st : ResultsState) (resultsType : String) : Option ResponseDict :=
  lookupA resultsType st.results

/-- `Results.get_packaged_results_of_type`: look the partition up, build
the header block — schema version, the two timestamps, the kind, the
data token derived by hashing the record list, and the two flags — and
assign it into the stored partition dict in place.  `hashFn` models the
run-dependent Python `hash(repr(...))`; the data token is its decimal
rendering.  Returns the packaged dict together with the mutated state. -/
def getPackagedResultsOfType (hashFn : List ImagePairRec → Int) (st : ResultsState)
    (resultsType : String) (reloadSeconds : Option Int) (isEditable isExported : Bool) :
    Option (ResponseDict × ResultsState) :=
  match lookupA resultsType st.results with
  | none => none
  | some rd =>
    let timeUpdated := st.timestamp
    let header : Header :=
      { schemaVersion := REBASELINE_SERVER_SCHEMA_VERSION_NUMBER,
        timeUpdated := timeUpdated,
        timeNextUpdateAvailable :=
          match reloadSeconds with
          | none => none
          | some s => if s = 0 then none else some (timeUpdated + s),
        type := resultsType,
        dataHash := toString (hashFn rd.imagePairs),
        isEditable := isEditable,
        isExported := isExported }
    let rd' : ResponseDict := { rd with header := some header }
    some (rd', { st with results := insertA resultsType rd' st.results })

/-! ## Concrete fixtures used by witnesses -/

/-- A diff store that always produces a handle. -/
def diffStoreOk : DiffStore := fun _ _ => .ok 0

/-- A diff store that always fails. -/
def diffStoreFail : DiffStore := fun _ _ => .error ()

/-- Outcome extractor used by concrete witnesses: the outcome of a
successful `processOne` run. -/
def procOut (ds : DiffStore) (ed : List (String × ExpectedBuilderDoc))
    (b rt img : String) (htd : Option HashTypeDigest) : RecordOutcome :=
  (processOne ds ed b rt img htd).toOption.getD default

/-- An expected tree holding one entry for builder B1 and image
t_8888.png allowing digest (md5, 111). -/
def wit2ExpDicts : List (String × ExpectedBuilderDoc) :=
  [("B1",
    { expectedResults :=
        some [("t_8888.png",
          { allowedDigests := some [("md5", 111)], bugs := none,
            ignoreFailure := none, reviewed := none })] })]

/-- An actual tree holding one FAILED result for builder B1 whose digest
does not match the expectation in wit2ExpDicts. -/
def wit10Actual : List (String × ActualBuilderDoc) :=
  [("B1", { actualResults := [("failed", [("t_8888.png", some ("md5", 222))])] })]

/-- State extractor used by concrete witnesses of the whole pipeline. -/
def loadOut (ds : DiffStore) (a : List (String × ActualBuilderDoc))
    (e : List (String × ExpectedBuilderDoc)) : LoadState :=
  (loadActualAndExpected ds a e).toOption.getD initLoadState

/-- The single failing record produced by the pipeline run over
wit10Actual and wit2ExpDicts: the digests differ, so the record keeps
its FAILED classification and lands in both partitions. -/
def wit10Rec : ImagePairRec :=
  { imageA := some "md5/t/111.png", imageB := some "md5/t/222.png",
    expectations := some { bugs := none, ignoreFailure := none, reviewed := none },
    extraColumns :=
      { resultType := KEY__RESULT_TYPE__FAILED, builder := "B1", test := "t",
        config := "8888" },
    diff := 0 }

/-- A one-record partition dict fixture used by the service witnesses. -/
def wit8State : ResultsState :=
  { results :=
      [(KEY__HEADER__RESULTS_ALL,
        { imagePairs :=
            [{ imageA := none, imageB := none, expectations := none,
               extraColumns :=
                 { resultType := KEY__RESULT_TYPE__FAILED, builder := "B1",
                   test := "t", config := "8888" },
               diff := 0 }],
          header := none })],
    timestamp := 100 }

/-- Packaged-call extractor used by the service witnesses. -/
def packOut (hashFn : List ImagePairRec → Int) (st : ResultsState) (ty : String)
    (rs : Option Int) (e x : Bool) : ResponseDict × ResultsState :=
  (getPackagedResultsOfType hashFn st ty rs e x).getD
    ({ imagePairs := [], header := none }, st)

/-- One well-formed modification targeting builder B2 and image
t_8888.png with digest (md5, 333). -/
def wit5Mod : Modification :=
  { builder := "B2", test := "t", config := "8888", newImageUrl := "md5/t/333.png",
    bugs := none, ignoreFailure := none, reviewed := none }

/-- An expected-root directory holding one file, for builder B1. -/
def wit5Fs : List (FsFile ExpectedBuilderDoc) :=
  [⟨"B1", "expected-results.json",
    { expectedResults :=
        some [("t_8888.png",
          { allowedDigests := some [("md5", 111)], bugs := none,
            ignoreFailure := none, reviewed := none })] }⟩]

/-- Boolean test: does a modification target this (builder, image
identity) pair? -/
def modTargets (b img : String) (m : Modification) : Bool :=
  decide (m.builder = b) && decide (formatImageName m.test m.config = img)

/-- Two modifications both targeting builder B1 and image t_8888.png
with different digests. -/
def wit6ModA : Modification :=
  { builder := "B1", test := "t", config := "8888", newImageUrl := "md5/t/444.png",
    bugs := some [12], ignoreFailure := none, reviewed := none }

/-- The later modification for the same (builder, image identity). -/
def wit6ModB : Modification :=
  { builder := "B1", test := "t", config := "8888", newImageUrl := "md5/t/555.png",
    bugs := none, ignoreFailure := some true, reviewed := some true }

/-! ## Helper lemmas -/

theorem lookupA_insertA_self {β : Type} (k : String) (v : β) (l : List (String × β)) :
    lookupA k (insertA k v l) = some v := by
  induction l with
  | nil => simp [insertA, lookupA]
  | cons p rest ih =>
    obtain ⟨a, bv⟩ := p
    by_cases hp : a = k
    · subst hp
      simp [insertA, lookupA]
    · simp [insertA, lookupA, hp, ih]

theorem lookupA_insertA_ne {β : Type} (k k' : String) (v : β) (l : List (String × β))
    (h : k' ≠ k) : lookupA k' (insertA k v l) = lookupA k' l := by
  have hkk' : ¬ k = k' := fun he => h he.symm
  induction l with
  | nil => simp [insertA, lookupA, hkk']
  | cons p rest ih =>
    obtain ⟨a, bv⟩ := p
    by_cases hp : a = k
    · subst hp
      simp [insertA, lookupA, hkk']
    · simp [insertA, lookupA, hp, ih]

theorem mkOutcome_expectedUrl (ds : DiffStore) (b rt t c : String)
    (aU eU : Option String) (ed : Option ExpectationsDict) (w : List WarningInfo) :
    (mkOutcome ds b rt t c aU eU ed w).expectedUrl = eU := rfl

theorem mkOutcome_actualUrl (ds : DiffStore) (b rt t c : String)
    (aU eU : Option String) (ed : Option ExpectationsDict) (w : List WarningInfo) :
    (mkOutcome ds b rt t c aU eU ed w).actualUrl = aU := rfl

theorem mkOutcome_warnings (ds : DiffStore) (b rt t c : String)
    (aU eU : Option String) (ed : Option ExpectationsDict) (w : List WarningInfo) :
    (mkOutcome ds b rt t c aU eU ed w).warnings = w := rfl

theorem mkOutcome_updated (ds : DiffStore) (b rt t c : String)
    (aU eU : Option String) (ed : Option ExpectationsDict) (w : List WarningInfo) :
    (mkOutcome ds b rt t c aU eU ed w).updatedResultType =
      if eU = aU then KEY__RESULT_TYPE__SUCCEEDED else rt := rfl

theorem mkOutcome_record (ds : DiffStore) (b rt t c : String)
    (aU eU : Option String) (ed : Option ExpectationsDict) (w : List WarningInfo) :
    (mkOutcome ds b rt t c aU eU ed w).record =
      match ds eU aU with
      | .error _ => none
      | .ok d =>
        some { imageA := eU, imageB := aU, expectations := ed,
               extraColumns :=
                 { resultType := if eU = aU then KEY__RESULT_TYPE__SUCCEEDED else rt,
                   builder := b, test := t, config := c },
               diff := d } := rfl

/-- Master description of a successful `processOne` outcome: the
reclassified label is SUCCEEDED exactly when the two references compare
equal; a record, when produced, carries the reclassified label in its
extra columns; and a diff-store failure always drops the record. -/
theorem processOne_ok_spec (ds : DiffStore) (ed : List (String × ExpectedBuilderDoc))
    (b rt img : String) (htd : Option HashTypeDigest) (o : RecordOutcome)
    (h : processOne ds ed b rt img htd = .ok o) :
    o.updatedResultType =
        (if o.expectedUrl = o.actualUrl then KEY__RESULT_TYPE__SUCCEEDED else rt) ∧
      (∀ r, o.record = some r → r.extraColumns.resultType = o.updatedResultType) ∧
      (∀ e, ds o.expectedUrl o.actualUrl = Except.error e → o.record = none) := by
  unfold processOne at h
  split at h
  · exact absurd h (by simp)
  · split at h
    · exact absurd h (by simp)
    · injection h with h
      subst h
      rw [mkOutcome_expectedUrl, mkOutcome_actualUrl]
      refine ⟨mkOutcome_updated _ _ _ _ _ _ _ _ _, ?_, ?_⟩
      · intro r hr
        rw [mkOutcome_record] at hr
        rw [mkOutcome_updated]
        split at hr
        · exact absurd hr (by simp)
        · injection hr with hr
          subst hr
          rfl
      · intro e he
        rw [mkOutcome_record, he]
    · injection h with h
      subst h
      rw [mkOutcome_expectedUrl, mkOutcome_actualUrl]
      refine ⟨mkOutcome_updated _ _ _ _ _ _ _ _ _, ?_, ?_⟩
      · intro r hr
        rw [mkOutcome_record] at hr
        rw [mkOutcome_updated]
        split at hr
        · exact absurd hr (by simp)
        · injection hr with hr
          subst hr
          rfl
      · intro e he
        rw [mkOutcome_record, he]

/-! ## Claim C1 -/

/-- C1 as stated is false on the code: with both references null (no
expectation entry, and a null digest recorded in the actual tree), the
two references compare equal and the record is reclassified SUCCEEDED,
instead of keeping its original FAILED classification as the claim
requires for the both-null case. -/
theorem C1_counterexample_both_null :
    (processOne diffStoreOk [] "B1" KEY__RESULT_TYPE__FAILED "testB_565.png" none).map
        (fun o => (o.expectedUrl, o.actualUrl, o.updatedResultType)) =
      Except.ok (none, none, KEY__RESULT_TYPE__SUCCEEDED) ∧
    KEY__RESULT_TYPE__SUCCEEDED ≠ KEY__RESULT_TYPE__FAILED :=
  ⟨rfl, by decide⟩

/-- C1 (amended): for every record, the final classification is SUCCEEDED
exactly when the expected reference equals the actual reference — with
two null references comparing equal — and is the original classification
stored in the actual tree otherwise. -/
theorem C1_reclassification_amended (ds : DiffStore)
    (ed : List (String × ExpectedBuilderDoc)) (b rt img : String)
    (htd : Option HashTypeDigest) (o : RecordOutcome)
    (h : processOne ds ed b rt img htd = .ok o) :
    o.updatedResultType =
      if o.expectedUrl = o.actualUrl then KEY__RESULT_TYPE__SUCCEEDED else rt :=
  (processOne_ok_spec ds ed b rt img htd o h).1

/-- Witness for C1 (amended) at a concrete input. -/
theorem C1_reclassification_amended_witness :
    (procOut diffStoreOk [] "B1" KEY__RESULT_TYPE__FAILED "testB_565.png" none).updatedResultType =
      if (procOut diffStoreOk [] "B1" KEY__RESULT_TYPE__FAILED "testB_565.png" none).expectedUrl =
          (procOut diffStoreOk [] "B1" KEY__RESULT_TYPE__FAILED "testB_565.png" none).actualUrl
      then KEY__RESULT_TYPE__SUCCEEDED else KEY__RESULT_TYPE__FAILED :=
  C1_reclassification_amended diffStoreOk [] "B1" KEY__RESULT_TYPE__FAILED "testB_565.png"
    none _ (by rfl)

/-! ## Claim C2 -/

/-- C2: for every record whose expected reference equals its actual
reference, the final classification is SUCCEEDED, regardless of the
classification label the actual tree stored. -/
theorem C2_equal_refs_succeeded (ds : DiffStore)
    (ed : List (String × ExpectedBuilderDoc)) (b rt img : String)
    (htd : Option HashTypeDigest) (o : RecordOutcome)
    (h : processOne ds ed b rt img htd = .ok o)
    (heq : o.expectedUrl = o.actualUrl) :
    o.updatedResultType = KEY__RESULT_TYPE__SUCCEEDED := by
  rw [(processOne_ok_spec ds ed b rt img htd o h).1, if_pos heq]

/-- Witness for C2: a FAILED actual whose digest matches the expectation
is reclassified SUCCEEDED. -/
theorem C2_equal_refs_succeeded_witness :
    (procOut diffStoreOk wit2ExpDicts "B1" KEY__RESULT_TYPE__FAILED "t_8888.png"
        (some ("md5", 111))).updatedResultType = KEY__RESULT_TYPE__SUCCEEDED :=
  C2_equal_refs_succeeded diffStoreOk wit2ExpDicts "B1" KEY__RESULT_TYPE__FAILED "t_8888.png"
    (some ("md5", 111)) _ (by rfl) (by rfl)

/-! ## Claim C4 -/

/-- C4: for an image with no expectation entry, reconciliation emits zero
warnings when the actual classification is NO_COMPARISON and exactly one
warning — naming builder, classification and image identity — for any
other classification; in both cases the expected reference is null and
the record is still processed. -/
theorem C4_missing_expectation_warnings (ds : DiffStore)
    (ed : List (String × ExpectedBuilderDoc)) (b rt img test config : String)
    (htd : Option HashTypeDigest)
    (hparse : parseImageName img = some (test, config))
    (hnoexp : lookupExpectations ed b img test = ExpLookupResult.notFound) :
    ∃ o, processOne ds ed b rt img htd = .ok o ∧
      o.warnings =
        (if rt = KEY__RESULT_TYPE__NOCOMPARISON then []
         else [{ builder := b, resultType := rt, imageName := img }]) ∧
      o.expectedUrl = none := by
  refine ⟨mkOutcome ds b rt test config (createRelativeUrl htd test) none none
    (if rt = KEY__RESULT_TYPE__NOCOMPARISON then []
     else [{ builder := b, resultType := rt, imageName := img }]), ?_, ?_, ?_⟩
  · unfold processOne
    rw [hparse]
    dsimp only
    rw [hnoexp]
  · exact mkOutcome_warnings _ _ _ _ _ _ _ _ _
  · exact mkOutcome_expectedUrl _ _ _ _ _ _ _ _ _

/-- Witness for C4 at a concrete input with a FAILED classification. -/
theorem C4_missing_expectation_warnings_witness :
    ∃ o, processOne diffStoreOk [] "B1" KEY__RESULT_TYPE__FAILED "testB_565.png" none =
        .ok o ∧
      o.warnings =
        (if KEY__RESULT_TYPE__FAILED = KEY__RESULT_TYPE__NOCOMPARISON then []
         else [{ builder := "B1", resultType := KEY__RESULT_TYPE__FAILED,
                 imageName := "testB_565.png" }]) ∧
      o.expectedUrl = none :=
  C4_missing_expectation_warnings diffStoreOk [] "B1" KEY__RESULT_TYPE__FAILED "testB_565.png"
    "testB" "565" none (by rfl) (by rfl)

/-! ## Claim C7 -/

/-- Auxiliary invariant for the loader fold: an ignored builder never
gets inserted, so a lookup that starts out empty stays empty. -/
theorem readDicts_fold_ignored {α : Type} (b : String) (h : ignoreBuilder b = true) :
    ∀ (fs : List (FsFile α)) (acc : List (String × α)), lookupA b acc = none →
      lookupA b
        (fs.foldl
          (fun acc f =>
            if matchesJson f.name ∧ ¬ ignoreBuilder f.dir then insertA f.dir f.doc acc
            else acc)
          acc) = none := by
  intro fs
  induction fs with
  | nil => intro acc hacc; simpa using hacc
  | cons f rest ih =>
    intro acc hacc
    rw [List.foldl_cons]
    by_cases hc : matchesJson f.name ∧ ¬ ignoreBuilder f.dir
    · rw [if_pos hc]
      apply ih
      have hne : b ≠ f.dir := fun he => hc.2 (he ▸ h)
      rw [lookupA_insertA_ne _ _ _ _ hne]
      exact hacc
    · rw [if_neg hc]
      exact ih acc hacc

/-- C7: a builder name ending in the trybot suffix or containing one of
the Valgrind / TSAN / ASAN markers never appears in the loader's output,
for any directory contents. -/
theorem C7_excluded_builder_never_loaded {α : Type} (fs : List (FsFile α)) (b : String)
    (h : ignoreBuilder b = true) : lookupA b (readDictsFromRoot fs) = none :=
  readDicts_fold_ignored b h fs [] rfl

/-- Witness for C7: an ASAN builder with a matching file is absent from
the loaded tree. -/
theorem C7_excluded_builder_never_loaded_witness :
    ignoreBuilder "Test-Ubuntu-ASAN" = true ∧
    lookupA "Test-Ubuntu-ASAN"
      (readDictsFromRoot [⟨"Test-Ubuntu-ASAN", "expected-results.json", (0 : Nat)⟩]) =
      none :=
  ⟨by decide,
   C7_excluded_builder_never_loaded
     [⟨"Test-Ubuntu-ASAN", "expected-results.json", (0 : Nat)⟩] "Test-Ubuntu-ASAN"
     (by decide)⟩

/-! ## Claim C3 -/

/-- C3: when the diff store fails for one record, the batch loop logs the
failure, adds the record to neither partition, and continues with all
remaining items unchanged. -/
theorem C3_diff_failure_drops_record (ds : DiffStore)
    (ed : List (String × ExpectedBuilderDoc)) (st : LoadState)
    (b rt img : String) (htd : Option HashTypeDigest)
    (rest : List (String × String × String × Option HashTypeDigest))
    (o : RecordOutcome) (e : Unit)
    (hp : processOne ds ed b rt img htd = .ok o)
    (hd : ds o.expectedUrl o.actualUrl = .error e) :
    loadFold ds ed st ((b, rt, img, htd) :: rest) =
      loadFold ds ed
        { st with warnings := st.warnings ++ o.warnings,
                  logs := st.logs ++ [EXCEPTION_LOG_MSG] } rest := by
  have hrec : o.record = none := (processOne_ok_spec ds ed b rt img htd o hp).2.2 e hd
  have h1 : loadStep ds ed st (b, rt, img, htd) =
      .ok { st with warnings := st.warnings ++ o.warnings,
                    logs := st.logs ++ [EXCEPTION_LOG_MSG] } := by
    unfold loadStep
    dsimp only
    rw [hp]
    dsimp only
    rw [hrec]
  have h2 : loadFold ds ed st ((b, rt, img, htd) :: rest) =
      (match loadStep ds ed st (b, rt, img, htd) with
       | .error e => .error e
       | .ok st' => loadFold ds ed st' rest) := rfl
  rw [h2, h1]

/-- Witness for C3: a failing diff store drops the first record and the
second item is still processed. -/
theorem C3_diff_failure_drops_record_witness :
    loadFold diffStoreFail [] initLoadState
        [("B1", KEY__RESULT_TYPE__FAILED, "testB_565.png", none),
         ("B1", KEY__RESULT_TYPE__FAILED, "x_8888.png", none)] =
      loadFold diffStoreFail []
        { initLoadState with
            warnings := initLoadState.warnings ++
              (procOut diffStoreFail [] "B1" KEY__RESULT_TYPE__FAILED "testB_565.png"
                none).warnings,
            logs := initLoadState.logs ++ [EXCEPTION_LOG_MSG] }
        [("B1", KEY__RESULT_TYPE__FAILED, "x_8888.png", none)] :=
  C3_diff_failure_drops_record diffStoreFail [] initLoadState "B1" KEY__RESULT_TYPE__FAILED
    "testB_565.png" none [("B1", KEY__RESULT_TYPE__FAILED, "x_8888.png", none)] _ ()
    (by rfl) (by rfl)

/-! ## Claim C10 -/

/-- One step of the batch loop preserves the failures-are-failing-subset
invariant. -/
theorem loadStep_preserves_inv (ds : DiffStore) (ed : List (String × ExpectedBuilderDoc))
    (st : LoadState) (item : String × String × String × Option HashTypeDigest)
    (st1 : LoadState) (hs : loadStep ds ed st item = .ok st1)
    (hinv : ∀ r ∈ st.failingPairs,
      r ∈ st.allPairs ∧ r.extraColumns.resultType ≠ KEY__RESULT_TYPE__SUCCEEDED) :
    ∀ r ∈ st1.failingPairs,
      r ∈ st1.allPairs ∧ r.extraColumns.resultType ≠ KEY__RESULT_TYPE__SUCCEEDED := by
  unfold loadStep at hs
  cases hp : processOne ds ed item.1 item.2.1 item.2.2.1 item.2.2.2 with
  | error e => rw [hp] at hs; exact absurd hs (by simp)
  | ok o =>
    rw [hp] at hs
    dsimp only at hs
    have hspec := processOne_ok_spec ds ed item.1 item.2.1 item.2.2.1 item.2.2.2 o hp
    cases hrec : o.record with
    | none =>
      rw [hrec] at hs
      injection hs with hs
      subst hs
      intro r hr
      exact hinv r hr
    | some r0 =>
      rw [hrec] at hs
      injection hs with hs
      subst hs
      intro r hr
      dsimp only at hr ⊢
      rcases List.mem_append.1 hr with h1 | h1
      · obtain ⟨hmem, hne⟩ := hinv r h1
        exact ⟨List.mem_append_left _ hmem, hne⟩
      · by_cases hcond : o.updatedResultType ≠ KEY__RESULT_TYPE__SUCCEEDED
        · rw [if_pos hcond] at h1
          have hr0 : r = r0 := by simpa using h1
          subst hr0
          refine ⟨List.mem_append_right _ (by simp), ?_⟩
          rw [hspec.2.1 r hrec]
          exact hcond
        · rw [if_neg hcond] at h1
          exact absurd h1 (by simp)

/-- The batch loop preserves the invariant across a whole item list. -/
theorem loadFold_preserves_inv (ds : DiffStore) (ed : List (String × ExpectedBuilderDoc)) :
    ∀ (items : List (String × String × String × Option HashTypeDigest))
      (st st' : LoadState), loadFold ds ed st items = .ok st' →
      (∀ r ∈ st.failingPairs,
        r ∈ st.allPairs ∧ r.extraColumns.resultType ≠ KEY__RESULT_TYPE__SUCCEEDED) →
      ∀ r ∈ st'.failingPairs,
        r ∈ st'.allPairs ∧ r.extraColumns.resultType ≠ KEY__RESULT_TYPE__SUCCEEDED := by
  intro items
  induction items with
  | nil =>
    intro st st' h hinv
    injection h with h
    subst h
    exact hinv
  | cons item rest ih =>
    intro st st' h hinv
    have h2 : loadFold ds ed st (item :: rest) =
        (match loadStep ds ed st item with
         | .error e => .error e
         | .ok st1 => loadFold ds ed st1 rest) := rfl
    rw [h2] at h
    cases hs : loadStep ds ed st item with
    | error e => rw [hs] at h; exact absurd h (by simp)
    | ok st1 =>
      rw [hs] at h
      exact ih st1 st' h (loadStep_preserves_inv ds ed st item st1 hs hinv)

/-- C10: every record in the failures-only partition is also in the
all-records partition, and carries a non-SUCCEEDED final classification. -/
theorem C10_failures_subset_all (ds : DiffStore)
    (actualDicts : List (String × ActualBuilderDoc))
    (expectedDicts : List (String × ExpectedBuilderDoc)) (st : LoadState)
    (h : loadActualAndExpected ds actualDicts expectedDicts = .ok st) :
    ∀ r ∈ st.failingPairs,
      r ∈ st.allPairs ∧ r.extraColumns.resultType ≠ KEY__RESULT_TYPE__SUCCEEDED := by
  unfold loadActualAndExpected at h
  exact loadFold_preserves_inv ds expectedDicts (recordItems actualDicts) initLoadState st h
    (by intro r hr; exact absurd hr (by simp [initLoadState]))

/-- Witness for C10 on a concrete pipeline run, instantiated at its one
failing record. -/
theorem C10_failures_subset_all_witness :
    wit10Rec ∈ (loadOut diffStoreOk wit10Actual wit2ExpDicts).allPairs ∧
      wit10Rec.extraColumns.resultType ≠ KEY__RESULT_TYPE__SUCCEEDED :=
  C10_failures_subset_all diffStoreOk wit10Actual wit2ExpDicts
    (loadOut diffStoreOk wit10Actual wit2ExpDicts) (by rfl) wit10Rec (by decide)

/-! ## Claim C8 -/

/-- C8: calling the packaged-results accessor twice with the same kind on
the same instance, with no intervening edits, yields the same data token
both times (for any hash function, since the record list the token is
derived from is not changed by packaging). -/
theorem C8_token_stability (hashFn : List ImagePairRec → Int) (st : ResultsState)
    (ty : String) (rs1 rs2 : Option Int) (e1 x1 e2 x2 : Bool)
    (rd1 rd2 : ResponseDict) (st1 st2 : ResultsState)
    (h1 : getPackagedResultsOfType hashFn st ty rs1 e1 x1 = some (rd1, st1))
    (h2 : getPackagedResultsOfType hashFn st1 ty rs2 e2 x2 = some (rd2, st2)) :
    Option.map Header.dataHash rd1.header = Option.map Header.dataHash rd2.header ∧
      rd1.header.isSome = true ∧ rd2.header.isSome = true := by
  unfold getPackagedResultsOfType at h1 h2
  cases hl : lookupA ty st.results with
  | none => rw [hl] at h1; exact absurd h1 (by simp)
  | some rd =>
    rw [hl] at h1
    dsimp only at h1
    injection h1 with h1
    injection h1 with hrd hst
    subst hrd
    subst hst
    dsimp only at h2
    rw [lookupA_insertA_self] at h2
    dsimp only at h2
    injection h2 with h2
    injection h2 with hrd2 hst2
    subst hrd2
    subst hst2
    exact ⟨rfl, rfl, rfl⟩

/-- Witness for C8 on a concrete instance and hash function. -/
theorem C8_token_stability_witness :
    Option.map Header.dataHash
        (packOut (fun l => (l.length : Int)) wit8State KEY__HEADER__RESULTS_ALL none false
          true).1.header =
      Option.map Header.dataHash
        (packOut (fun l => (l.length : Int))
          (packOut (fun l => (l.length : Int)) wit8State KEY__HEADER__RESULTS_ALL none false
            true).2
          KEY__HEADER__RESULTS_ALL (some 10) true true).1.header ∧
      (packOut (fun l => (l.length : Int)) wit8State KEY__HEADER__RESULTS_ALL none false
        true).1.header.isSome = true ∧
      (packOut (fun l => (l.length : Int))
        (packOut (fun l => (l.length : Int)) wit8State KEY__HEADER__RESULTS_ALL none false
          true).2
        KEY__HEADER__RESULTS_ALL (some 10) true true).1.header.isSome = true :=
  C8_token_stability (fun l => (l.length : Int)) wit8State KEY__HEADER__RESULTS_ALL none
    (some 10) false true true true _ _ _ _ (by rfl) (by rfl)

/-! ## Claim C9 -/

/-- C9: packaging mutates the stored partition in place: after a packaged
call for a kind, the raw accessor for the same kind returns the packaged
dict, which now carries the full header block. -/
theorem C9_package_mutates_stored_partition (hashFn : List ImagePairRec → Int)
    (st : ResultsState) (ty : String) (rs : Option Int) (e x : Bool)
    (rd' : ResponseDict) (st' : ResultsState)
    (h : getPackagedResultsOfType hashFn st ty rs e x = some (rd', st')) :
    getResultsOfType st' ty = some rd' ∧
      ∃ hd, rd'.header = some hd ∧
        hd.schemaVersion = REBASELINE_SERVER_SCHEMA_VERSION_NUMBER ∧
        hd.timeUpdated = st.timestamp ∧
        hd.type = ty ∧
        hd.isEditable = e ∧
        hd.isExported = x := by
  unfold getPackagedResultsOfType at h
  cases hl : lookupA ty st.results with
  | none => rw [hl] at h; exact absurd h (by simp)
  | some rd =>
    rw [hl] at h
    dsimp only at h
    injection h with h
    injection h with hrd hst
    subst hrd
    subst hst
    refine ⟨?_, ?_⟩
    · unfold getResultsOfType
      dsimp only
      rw [lookupA_insertA_self]
    · exact ⟨_, rfl, rfl, rfl, rfl, rfl, rfl⟩

/-- Witness for C9 on a concrete instance. -/
theorem C9_package_mutates_stored_partition_witness :
    getResultsOfType
        (packOut (fun l => (l.length : Int)) wit8State KEY__HEADER__RESULTS_ALL none false
          true).2
        KEY__HEADER__RESULTS_ALL =
      some
        (packOut (fun l => (l.length : Int)) wit8State KEY__HEADER__RESULTS_ALL none false
          true).1 ∧
      ∃ hd,
        (packOut (fun l => (l.length : Int)) wit8State KEY__HEADER__RESULTS_ALL none false
          true).1.header = some hd ∧
          hd.schemaVersion = REBASELINE_SERVER_SCHEMA_VERSION_NUMBER ∧
          hd.timeUpdated = wit8State.timestamp ∧
          hd.type = KEY__HEADER__RESULTS_ALL ∧
          hd.isEditable = false ∧
          hd.isExported = true :=
  C9_package_mutates_stored_partition (fun l => (l.length : Int)) wit8State
    KEY__HEADER__RESULTS_ALL none false true _ _ (by rfl)

/-! ## Edit-path lemmas -/

/-- A successful `applyOneMod` implies the modification's entry built
without error. -/
theorem applyOneMod_entry_ok (dicts : List (String × ExpectedBuilderDoc))
    (m : Modification) (d' : List (String × ExpectedBuilderDoc))
    (h : applyOneMod dicts m = .ok d') :
    ∃ en, newExpectationsEntry m = .ok en := by
  unfold applyOneMod at h
  cases hen : newExpectationsEntry m with
  | error e => rw [hen] at h; exact absurd h (by simp)
  | ok en => exact ⟨en, rfl⟩

/-- A successful `applyOneMod` leaves the lookup of every other builder
unchanged. -/
theorem applyOneMod_lookup_other (dicts : List (String × ExpectedBuilderDoc))
    (m : Modification) (d' : List (String × ExpectedBuilderDoc))
    (h : applyOneMod dicts m = .ok d') (b : String) (hb : b ≠ m.builder) :
    lookupA b d' = lookupA b dicts := by
  unfold applyOneMod at h
  cases hen : newExpectationsEntry m with
  | error e => rw [hen] at h; exact absurd h (by simp)
  | ok en =>
    rw [hen] at h
    dsimp only at h
    cases hlk : lookupA m.builder dicts with
    | none => rw [hlk] at h; exact absurd h (by simp)
    | some doc =>
      rw [hlk] at h
      injection h with h
      subst h
      exact lookupA_insertA_ne _ _ _ _ hb

/-- A successful `applyOneMod` stores exactly the entry built from the
modification under its (builder, image identity). -/
theorem applyOneMod_lookup_self (dicts : List (String × ExpectedBuilderDoc))
    (m : Modification) (d' : List (String × ExpectedBuilderDoc)) (en : ExpectationsPerTest)
    (h : applyOneMod dicts m = .ok d') (hen : newExpectationsEntry m = .ok en) :
    lookupExpEntry d' m.builder (formatImageName m.test m.config) = some en := by
  unfold applyOneMod at h
  rw [hen] at h
  dsimp only at h
  cases hlk : lookupA m.builder dicts with
  | none => rw [hlk] at h; exact absurd h (by simp)
  | some doc =>
    rw [hlk] at h
    injection h with h
    subst h
    unfold lookupExpEntry
    rw [lookupA_insertA_self]
    dsimp only
    rw [lookupA_insertA_self]

/-- A successful `applyOneMod` for a modification that does not target
(builder, image identity) leaves the stored entry for that pair
unchanged. -/
theorem applyOneMod_preserves_other (dicts : List (String × ExpectedBuilderDoc))
    (m : Modification) (d' : List (String × ExpectedBuilderDoc)) (b img : String)
    (h : applyOneMod dicts m = .ok d')
    (hnt : ¬ (m.builder = b ∧ formatImageName m.test m.config = img)) :
    lookupExpEntry d' b img = lookupExpEntry dicts b img := by
  unfold applyOneMod at h
  cases hen : newExpectationsEntry m with
  | error e => rw [hen] at h; exact absurd h (by simp)
  | ok en =>
    rw [hen] at h
    dsimp only at h
    cases hlk : lookupA m.builder dicts with
    | none => rw [hlk] at h; exact absurd h (by simp)
    | some doc =>
      rw [hlk] at h
      injection h with h
      subst h
      by_cases hb : m.builder = b
      · have himg : ¬ formatImageName m.test m.config = img := fun he => hnt ⟨hb, he⟩
        subst hb
        unfold lookupExpEntry
        rw [lookupA_insertA_self, hlk]
        dsimp only
        cases hexp : doc.expectedResults with
        | none =>
          dsimp only
          rw [lookupA_insertA_ne _ _ _ _ (fun he => himg he.symm)]
          rfl
        | some l =>
          dsimp only
          rw [lookupA_insertA_ne _ _ _ _ (fun he => himg he.symm)]
      · unfold lookupExpEntry
        rw [lookupA_insertA_ne _ _ _ _ (fun he => hb he.symm)]

/-- A successful run of the modification loop over modifications none of
which target (builder, image identity) leaves the stored entry for that
pair unchanged. -/
theorem applyMods_preserves_no_target (b img : String) :
    ∀ (ms : List Modification) (dicts d' : List (String × ExpectedBuilderDoc)),
      applyMods dicts ms = .ok d' →
      (∀ m' ∈ ms, ¬ (m'.builder = b ∧ formatImageName m'.test m'.config = img)) →
      lookupExpEntry d' b img = lookupExpEntry dicts b img := by
  intro ms
  induction ms with
  | nil =>
    intro dicts d' h _
    injection h with h
    subst h
    rfl
  | cons m0 rest ih =>
    intro dicts d' h hnt
    have h2 : applyMods dicts (m0 :: rest) =
        (match applyOneMod dicts m0 with
         | .error e => .error e
         | .ok d1 => applyMods d1 rest) := rfl
    rw [h2] at h
    cases ha : applyOneMod dicts m0 with
    | error e => rw [ha] at h; exact absurd h (by simp)
    | ok d1 =>
      rw [ha] at h
      rw [ih d1 d' h (fun m' hm' => hnt m' (List.mem_cons_of_mem _ hm'))]
      exact applyOneMod_preserves_other dicts m0 d1 b img ha
        (hnt m0 (List.mem_cons_self _ _))

/-- When some modification's builder is absent from the tree and every
modification's entry builds without error, the modification loop fails
with the builder-lookup KeyError. -/
theorem applyMods_absent_builder :
    ∀ (mods : List Modification) (dicts : List (String × ExpectedBuilderDoc))
      (m : Modification),
      (∀ m' ∈ mods, ∃ en, newExpectationsEntry m' = Except.ok en) →
      m ∈ mods → lookupA m.builder dicts = none →
      ∃ msg, applyMods dicts mods = .error (.keyError msg) := by
  intro mods
  induction mods with
  | nil => intro dicts m _ hm _; exact absurd hm (by simp)
  | cons m0 ms ih =>
    intro dicts m hwf hm habs
    obtain ⟨en0, hen0⟩ := hwf m0 (List.mem_cons_self _ _)
    have h2 : applyMods dicts (m0 :: ms) =
        (match applyOneMod dicts m0 with
         | .error e => .error e
         | .ok d1 => applyMods d1 ms) := rfl
    cases hlk : lookupA m0.builder dicts with
    | none =>
      refine ⟨m0.builder, ?_⟩
      have ha : applyOneMod dicts m0 = .error (.keyError m0.builder) := by
        unfold applyOneMod
        rw [hen0]
        dsimp only
        rw [hlk]
      rw [h2, ha]
    | some doc =>
      have hm' : m ∈ ms := by
        rcases List.mem_cons.1 hm with he | hmem
        · rw [he, hlk] at habs; exact absurd habs (by simp)
        · exact hmem
      have ha : applyOneMod dicts m0 =
          .ok (insertA m0.builder
            { expectedResults :=
                some (insertA (formatImageName m0.test m0.config) en0
                  (match doc.expectedResults with | none => [] | some l => l)) }
            dicts) := by
        unfold applyOneMod
        rw [hen0]
        dsimp only
        rw [hlk]
      have hne : m.builder ≠ m0.builder := by
        intro he
        rw [he, hlk] at habs
        exact absurd habs (by simp)
      have habs' : lookupA m.builder
          (insertA m0.builder
            { expectedResults :=
                some (insertA (formatImageName m0.test m0.config) en0
                  (match doc.expectedResults with | none => [] | some l => l)) }
            dicts) = none := by
        rw [lookupA_insertA_ne _ _ _ _ hne]
        exact habs
      obtain ⟨msg, hmsg⟩ :=
        ih _ m (fun m' hm2 => hwf m' (List.mem_cons_of_mem _ hm2)) hm' habs'
      refine ⟨msg, ?_⟩
      rw [h2, ha]
      exact hmsg

/-! ## Claim C5 -/

/-- C5: when a modification names a builder absent from the
freshly-reloaded expected tree, the edit entry point fails with the
KeyError (the builder-set-mismatch failure mode) and the files on disk
are completely unchanged — the failure happens before any write.  The
hypothesis that every modification's entry builds without error rules
out the earlier ValueError/TypeError failure modes, which also leave the
disk unchanged. -/
theorem C5_absent_builder_fails_before_write (fs : List (FsFile ExpectedBuilderDoc))
    (mods : List Modification) (m : Modification)
    (hwf : ∀ m' ∈ mods, ∃ en, newExpectationsEntry m' = Except.ok en)
    (hm : m ∈ mods)
    (habsent : lookupA m.builder (readDictsFromRoot fs) = none) :
    ∃ msg, editExpectations fs mods = (Except.error (EditErr.keyError msg), fs) := by
  obtain ⟨msg, hmsg⟩ :=
    applyMods_absent_builder mods (readDictsFromRoot fs) m hwf hm habsent
  refine ⟨msg, ?_⟩
  unfold editExpectations
  dsimp only
  rw [hmsg]

/-- Witness for C5: editing builder B2 when only B1 exists on disk fails
with a KeyError and leaves the directory unchanged. -/
theorem C5_absent_builder_fails_before_write_witness :
    ∃ msg, editExpectations wit5Fs [wit5Mod] =
      (Except.error (EditErr.keyError msg), wit5Fs) :=
  C5_absent_builder_fails_before_write wit5Fs [wit5Mod] wit5Mod
    (by
      intro m' hm'
      have hm2 : m' = wit5Mod := by simpa using hm'
      subst hm2
      exact ⟨_, by rfl⟩)
    (by simp) (by rfl)

/-! ## Claim C6 -/

theorem modTargets_iff (b img : String) (m : Modification) :
    modTargets b img m = true ↔
      (m.builder = b ∧ formatImageName m.test m.config = img) := by
  simp [modTargets]

/-- C6: after a successful run of the modification loop, the entry stored
for a (builder, image identity) targeted by at least one modification is
exactly the entry built from the last such modification in input order —
the digest reference plus its non-null verbatim fields — with no merge
against any prior entry. -/
theorem C6_replacement_last_wins :
    ∀ (mods : List Modification) (dicts d' : List (String × ExpectedBuilderDoc))
      (b img : String) (m : Modification),
      applyMods dicts mods = .ok d' →
      (mods.filter (modTargets b img)).getLast? = some m →
      ∃ en, newExpectationsEntry m = .ok en ∧ lookupExpEntry d' b img = some en := by
  intro mods
  induction mods with
  | nil =>
    intro dicts d' b img m _ hlast
    exact absurd hlast (by simp)
  | cons m0 ms ih =>
    intro dicts d' b img m h hlast
    have h2 : applyMods dicts (m0 :: ms) =
        (match applyOneMod dicts m0 with
         | .error e => .error e
         | .ok d1 => applyMods d1 ms) := rfl
    rw [h2] at h
    cases ha : applyOneMod dicts m0 with
    | error e => rw [ha] at h; exact absurd h (by simp)
    | ok d1 =>
      rw [ha] at h
      by_cases ht : modTargets b img m0 = true
      · rw [List.filter_cons_of_pos ht] at hlast
        cases hfm : ms.filter (modTargets b img) with
        | nil =>
          rw [hfm, List.getLast?_singleton] at hlast
          have hm0 : m0 = m := by simpa using hlast
          subst hm0
          obtain ⟨en0, hen0⟩ := applyOneMod_entry_ok dicts m0 d1 ha
          obtain ⟨hb, himg⟩ := (modTargets_iff b img m0).1 ht
          refine ⟨en0, hen0, ?_⟩
          have hfix : lookupExpEntry d1 b img = some en0 := by
            rw [← hb, ← himg]
            exact applyOneMod_lookup_self dicts m0 d1 en0 ha hen0
          rw [applyMods_preserves_no_target b img ms d1 d' h ?hnone]
          · exact hfix
          case hnone =>
            intro m' hm' hand
            exact absurd ((modTargets_iff b img m').2 hand)
              (by
                have := List.filter_eq_nil_iff.1 hfm m' hm'
                simpa using this)
        | cons x xs =>
          rw [hfm, List.getLast?_cons_cons, ← hfm] at hlast
          exact ih d1 d' b img m h hlast
      · rw [List.filter_cons_of_neg ht] at hlast
        exact ih d1 d' b img m h hlast

/-- Witness for C6: with two modifications targeting the same image, the
stored entry is the one built from the later modification. -/
theorem C6_replacement_last_wins_witness :
    ∃ en, newExpectationsEntry wit6ModB = .ok en ∧
      lookupExpEntry
        ((applyMods (readDictsFromRoot wit5Fs) [wit6ModA, wit6ModB]).toOption.getD [])
        "B1" "t_8888.png" = some en :=
  C6_replacement_last_wins [wit6ModA, wit6ModB] (readDictsFromRoot wit5Fs)
    ((applyMods (readDictsFromRoot wit5Fs) [wit6ModA, wit6ModB]).toOption.getD [])
    "B1" "t_8888.png" wit6ModB (by rfl) (by rfl)
